import Mathlib

/-!
Verification development for the ASI motion-controller driver
(olive-motion-asi): a shallow embedding of the protocol codec, error
taxonomy, axis lifecycle and calibration algorithm found in
`src/olive/drivers/asi/base.py`, `ms2000.py` and `tiger.py`, together with
theorems settling the specification claims about them.

Python strings/bytes are modelled as Lean `String`/`List Char` (the
protocol is ASCII), Python floats as `ℚ` (the algorithms only perform
exact field arithmetic), Python ints as `ℤ`, and raised exceptions as the
`Except` monad.
-/

namespace ASIModel

/-! ## Python primitive helpers

Small executable models of the Python string/int primitives that the
driver uses, defined over `List Char` so that they evaluate by `decide`
and `rfl`. -/

/-- Model of Python `s[n:]` (character slicing from index `n`). -/
def py_drop (n : ℕ) (s : String) : String :=
  (s.toList.drop n).asString

/-- Model of Python `s[:-n]` for `0 < n` (used to cut a terminator off a
response; matches Python in returning `""` when `n ≥ len(s)`). -/
def py_cut (n : ℕ) (s : String) : String :=
  (s.toList.take (s.toList.length - n)).asString

/-- Model of Python `s.startswith(p)`. -/
def py_startswith (s p : String) : Bool :=
  p.toList.isPrefixOf s.toList

/-- Model of Python `bytes.replace(b"\r", b"\n")` for the single-character
pattern used in `send_cmd`: a character-wise substitution. -/
def replaceCR (s : String) : String :=
  (s.toList.map (fun c => if c = '\r' then '\n' else c)).asString

/-- Model of Python `s.rstrip()` (trailing-whitespace removal). -/
def py_rstrip (s : String) : String :=
  (s.toList.reverse.dropWhile Char.isWhitespace).reverse.asString

/-- Model of Python `s.strip()` (whitespace removal at both ends). -/
def py_strip (s : String) : String :=
  ((s.toList.dropWhile Char.isWhitespace).reverse.dropWhile
    Char.isWhitespace).reverse.asString

/-- Decimal value of a digit list, or `none` if empty or non-numeric. -/
def digitsVal (l : List Char) : Option ℕ :=
  if l ≠ [] ∧ l.all Char.isDigit then
    some (l.foldl (fun a c => 10 * a + (c.toNat - 48)) 0)
  else none

/-- Model of Python `int(s)` for decimal literals: optional leading minus
sign followed by at least one digit, otherwise a `ValueError` (`none`).
In particular `int("") ` fails. -/
def py_int (s : String) : Option ℤ :=
  match s.toList with
  | '-' :: rest => (digitsVal rest).map (fun n => -(n : ℤ))
  | l => (digitsVal l).map (fun n => (n : ℤ))

/-- Model of Python `l.split(sep)` for a one-character separator `c`:
splits into the (possibly empty) chunks between occurrences of `c`. -/
def splitOnChar (c : Char) : List Char → List (List Char)
  | [] => [[]]
  | x :: xs =>
    match splitOnChar c xs with
    | [] => [[]]
    | h :: t => if x = c then [] :: h :: t else (x :: h) :: t

/-- Model of Python `l.split(sep, maxsplit=1)` followed by a two-element
unpacking: `some (before, after)` at the first occurrence of `c`, `none`
(an unpacking `ValueError`) when `c` does not occur. -/
def splitFirst (c : Char) : List Char → Option (List Char × List Char)
  | [] => none
  | x :: xs =>
    if x = c then some ([], xs)
    else
      match splitFirst c xs with
      | none => none
      | some (a, b) => some (x :: a, b)

/-! ## Error taxonomy

Embedding of the exception classes raised by the driver
(`src/olive/drivers/asi/errors.py` plus the builtin classes used in
`base.py`). Codes 5 and 6 are raised in the source as builtin
`RuntimeError` values distinguished by their message. -/

/-- Exception values the driver can raise. -/
inductive PyErr where
  | UnknownCommandError : String → PyErr
  | UnrecognizedAxisError : String → PyErr
  | MissingParameterError : String → PyErr
  | OutOfRangeError : String → PyErr
  | RuntimeError : String → PyErr
  | InvalidCardAddressError : String → PyErr
  | HaltError : String → PyErr
  | UnknownError : String → PyErr
  | ValueError : String → PyErr
  deriving DecidableEq

/-- Embedding of `ASISerialCommandController.interpret_error`
(`base.py` lines 304-316): the dictionary lookup with default, realized
as the equivalent decision chain. Every branch raises. -/
def interpret_error (errno : ℤ) : PyErr :=
  if errno = 1 then .UnknownCommandError ""
  else if errno = 2 then .UnrecognizedAxisError ""
  else if errno = 3 then .MissingParameterError ""
  else if errno = 4 then .OutOfRangeError ""
  else if errno = 5 then .RuntimeError "operation failed"
  else if errno = 6 then .RuntimeError "undefined error"
  else if errno = 7 then .InvalidCardAddressError ""
  else if errno = 21 then .HaltError ""
  else .UnknownError ("errno=" ++ toString errno)

/-! ## Command encoding and response decoding

Embedding of `ASISerialCommandController.send_cmd` (`base.py` lines
270-294) and `_check_error` (lines 296-302), plus the `_check_error` of
the second snapshot in `tiger.py` (lines 188-197). Keyword arguments are
taken already stringified, as Python's f-string formatting makes them. -/

/-- Steps 1-3 of `send_cmd`: join the stringified positional arguments and
the `key=value` keyword arguments with single spaces, prepend the address
and append the `\r` command terminator. -/
def encode_cmd (args : List String) (kwargs : List (String × String))
    (address : String) : String :=
  address ++
    (String.intercalate " "
      (args ++ kwargs.map (fun kv => kv.1 ++ "=" ++ kv.2))) ++ "\r"

/-- Embedding of `_check_error` from `base.py`: a `:N`-prefixed response
raises the interpreted error (the integer is parsed from offset 3,
skipping the sign character), a `:A`-prefixed response returns the
payload after stripping 2 characters and trimming whitespace, anything
else is returned verbatim. -/
def check_error (response : String) : Except PyErr String :=
  if py_startswith response ":N" then
    match py_int (py_drop 3 response) with
    | some errno => .error (interpret_error errno)
    | none => .error (.ValueError "invalid literal for int")
  else if py_startswith response ":A" then
    .ok (py_strip (py_drop 2 response))
  else .ok response

/-- Embedding of `_check_error` from the `tiger.py` snapshot: identical
`:N` handling, but a `:A`-prefixed response is stripped of 3 characters
and returned without trimming. -/
def tiger_check_error (response : String) : Except PyErr String :=
  if py_startswith response ":N" then
    match py_int (py_drop 3 response) with
    | some errno => .error (interpret_error errno)
    | none => .error (.ValueError "invalid literal for int")
  else if py_startswith response ":A" then
    .ok (py_drop 3 response)
  else .ok response

/-- Step 5 of `send_cmd`: cut the terminator off the raw response bytes,
normalize embedded `\r` to `\n`, right-trim, then classify via
`check_error`. -/
def decode_response (raw term : String) : Except PyErr String :=
  check_error (py_rstrip (replaceCR (py_cut term.length raw)))

/-! ## Channel events

Trace model for the serial-channel actions one `send_cmd` call performs.
`ASISerialCommandController.__init__` (`base.py` line 219) allocates a
`trio.StrictFIFOLock` next to the serial handle; `acquire`/`release`
events would mark its use. -/

/-- Observable actions on the shared serial channel. -/
inductive ChanEvent where
  | acquire : ChanEvent
  | release : ChanEvent
  | write : String → ChanEvent
  | readUntil : String → ChanEvent
  deriving DecidableEq

/-- Trace of channel actions performed by one `send_cmd` call (`base.py`
lines 270-294): it writes the encoded command then blocks reading until
the terminator. No other channel action occurs in its body. -/
def send_cmd_events (args : List String) (kwargs : List (String × String))
    (address term : String) : List ChanEvent :=
  [ChanEvent.write (encode_cmd args kwargs address),
   ChanEvent.readUntil term]

/-! ## Axis lifecycle and commands -/

/-- Lifecycle state of one `ASIAxis` (`base.py` lines 22-48): the cached
`DeviceInfo` (vendor, model) and the cached unit multiplier. -/
structure AxisSession where
  info : Option (String × String)
  multiplier : ℚ
  deriving DecidableEq

/-- State after `ASIAxis.__init__`: `_info = None`, `_multiplier = 1`. -/
def axis_init : AxisSession :=
  { info := none, multiplier := 1 }

/-- Embedding of `ASIAxis._open` (`base.py` lines 42-44): record the
identity and store the multiplier fetched from the `unit_multiplier`
property. -/
def axis_open (axis : String) (fetched : ℚ) (_s : AxisSession) :
    AxisSession :=
  { info := some ("ASI", axis), multiplier := fetched }

/-- Embedding of `ASIAxis._close` (`base.py` lines 46-48): issue the stop
command and set `_info = None`. No other attribute is assigned. -/
def axis_close (s : AxisSession) : AxisSession :=
  { s with info := none }

/-- Wire bytes produced by `ASIAxis.stop` (`base.py` lines 186-187): the
body is `self.parent.send_cmd("\\")`, using neither `self.axis` nor the
`emergency` flag. -/
def stop_cmd (_axis : String) (_emergency : Bool) : String :=
  encode_cmd ["\x5c"] [] ""

/-- Commands issued on the wire by `ASIAxis._close` for a given axis: the
single stop command. -/
def axis_close_cmds (axis : String) : List String :=
  [stop_cmd axis false]

/-! ## Unit conversion (`ASIAxis.get_position` / `ASIAxis.move_absolute`,
`base.py` lines 76-89) -/

/-- Model of Python `int()` applied to a float: truncation toward zero. -/
def pytrunc (q : ℚ) : ℤ :=
  if 0 ≤ q then ⌊q⌋ else ⌈q⌉

/-- Embedding of the read-side conversion in `get_position`: the raw
device integer divided by the axis multiplier. -/
def to_physical_units (raw : ℤ) (mult : ℚ) : ℚ :=
  (raw : ℚ) / mult

/-- Embedding of the write-side conversion in `move_absolute`:
`pos *= self._multiplier` followed by `pos = int(pos)` ("remove
decimal"). -/
def to_device_units (pos mult : ℚ) : ℤ :=
  pytrunc (pos * mult)

/-! ## MS2000 axis enumeration (`ms2000.py` lines 42-54)

`enumerate_axes` computes `set(fw_info.split("_")[1])` and iterates over
that set to build candidate axes. The Python `set` deduplicates its
elements and iterates in an implementation-defined order; it is modelled
here by `List.dedup`, whose essential property (each distinct character
once) is all the theorems rely on. -/

/-- Model of the Python `set(...)` applied to the characters of a string
field: duplicate characters collapse to one occurrence. -/
def pySet (l : List Char) : List Char :=
  l.dedup

/-- Candidate axis labels computed by `MS2000.enumerate_axes` from the
`BU` build string: `set(fw_info.split("_")[1])`. `none` models the
`IndexError` when the build string has no `_`. -/
def ms2000_candidates (fw : String) : Option (List Char) :=
  match splitOnChar '_' fw.toList with
  | _ :: second :: _ => some (pySet second)
  | _ => none

/-! ## Tiger card table (`tiger.py` lines 232-277) -/

/-- Parsed card record built by `Tiger._get_cards`. -/
structure Card where
  address : ℤ
  function : String
  version : String
  character : String
  deriving DecidableEq

/-- Embedding of the per-line body of `Tiger._get_cards`:
`address, line = line.split(":", maxsplit=1)`, then
`address = int(address[3:])` (the first three characters of the address
field are discarded before the integer parse), then the stripped
remainder is split on spaces into `function, version, character,
*options`. Unpacking and `int` failures raise `ValueError`. -/
def parse_card (line : List Char) : Except PyErr Card :=
  match splitFirst ':' line with
  | none => .error (.ValueError "not enough values to unpack")
  | some (addr, rest) =>
    match py_int (addr.drop 3).asString with
    | none => .error (.ValueError "invalid literal for int")
    | some a =>
      match splitOnChar ' ' (py_strip rest.asString).toList with
      | f :: v :: ch :: _ =>
        .ok { address := a, function := f.asString, version := v.asString,
              character := ch.asString }
      | _ => .error (.ValueError "not enough values to unpack")

/-- Axis labels one card contributes in `Tiger.enumerate_axes`: the
function field is split on commas and each entry keeps the label before
its first `:` (`motor.split(":", maxsplit=1)[0]`). -/
def card_axis_labels (c : Card) : List String :=
  (splitOnChar ',' c.function.toList).map
    (fun motor => (motor.takeWhile (fun x => x != ':')).asString)

/-- Candidate axis labels collected by `Tiger.enumerate_axes` (`tiger.py`
lines 256-267): cards whose character tag is not `SCAN_XY_LED` or
`STD_ZF` are skipped, the rest contribute their labels in order. -/
def tiger_candidates (cards : List Card) : List String :=
  (cards.filter
      (fun c =>
        c.character == "SCAN_XY_LED" || c.character == "STD_ZF")).flatMap
    card_axis_labels

/-! ## Simulated axis and the calibration algorithm
(`ASIAxis.calibrate`, `base.py` lines 147-184)

The claims quantify over a simulated axis whose limit-status flags are
deterministic functions of position. The simulation: positions live on an
integer grid of device steps; the limit switches sit at machine positions
`physLo` and `physHi` and the status flag is a function of the current
position (upper at or beyond `physHi`, lower at or below `physLo`);
continuous motion started by `move_continuous` advances the position by
`tick` device steps per polling tick and is stopped by the limit
switches; relative moves land exactly at their commanded step count.
The driver-side values (`get_position`, `move_relative` arguments) are
physical units, converted through the unit multiplier `mul` exactly as
`get_position`/`move_relative` do (`raw / mul` on read,
`int(value * mul)` on write). -/

/-- Claim C5: encoding verb `M` with keyword argument `X=1500` produces
exactly the wire bytes `M X=1500\r`; decoding the response bytes
`:A\r\n` yields the empty payload; and decoding the response bytes
`:N004\r\n` raises the error for code 4, which is `OutOfRangeError`. -/
theorem send_cmd_wire_examples :
    encode_cmd ["M"] [("X", "1500")] "" = "M X=1500\r" ∧
    decode_response ":A\r\n" "\r\n" = Except.ok "" ∧
    decode_response ":N004\r\n" "\r\n" =
      Except.error (interpret_error 4) ∧
    interpret_error 4 = PyErr.OutOfRangeError "" := by
  refine ⟨rfl, rfl, rfl, rfl⟩

/-- Claim C9: the two `_check_error` snapshots disagree on a success
response. On `":A  x"` (payload with leading whitespace) the `base.py`
decoder strips the 2-character marker and trims, returning `"x"`, while
the `tiger.py` decoder strips 3 characters without trimming, returning
`" x"`. -/
theorem check_error_offset_divergence :
    py_startswith ":A  x" ":A" = true ∧
    check_error ":A  x" = Except.ok "x" ∧
    tiger_check_error ":A  x" = Except.ok " x" ∧
    check_error ":A  x" ≠ tiger_check_error ":A  x" := by
  refine ⟨rfl, rfl, rfl, ?_⟩
  intro h
  have h1 : check_error ":A  x" = Except.ok "x" := rfl
  have h2 : tiger_check_error ":A  x" = Except.ok " x" := rfl
  rw [h1, h2] at h
  simp at h

/-- Claim C10: `ASIAxis.stop` ignores both its axis label and its
emergency flag and always produces the bare global halt bytes `\ CR`,
and since `_close` invokes `stop`, closing any axis issues exactly that
controller-wide halt, identically for every axis. -/
theorem stop_is_global_halt :
    (∀ a : String, ∀ e : Bool, stop_cmd a e = "\x5c\r") ∧
    (∀ a : String, axis_close_cmds a = ["\x5c\r"]) := by
  refine ⟨fun a e => rfl, fun a => rfl⟩

/-- Claim C7 (counterexample): after opening an axis with fetched
multiplier 5 and closing it again, the multiplier still holds the
fetched value 5 (it does not revert to the constructor value 1), so
closing does not clear it. -/
theorem axis_close_keeps_fetched_multiplier :
    (axis_close (axis_open "X" 5 axis_init)).multiplier = 5 ∧
    axis_init.multiplier = 1 ∧ (5 : ℚ) ≠ 1 := by
  refine ⟨rfl, rfl, by norm_num⟩

/-- Claim C7 (amended): `_open` stores the fetched multiplier, and
`_close` clears only the identity, leaving the multiplier unchanged at
its last fetched value. -/
theorem axis_close_clears_info_keeps_multiplier :
    (∀ (a : String) (f : ℚ) (s : AxisSession),
       (axis_open a f s).multiplier = f ∧
       (axis_open a f s).info = some ("ASI", a)) ∧
    (∀ s : AxisSession,
       (axis_close s).info = none ∧
       (axis_close s).multiplier = s.multiplier) := by
  exact ⟨fun a f s => ⟨rfl, rfl⟩, fun s => ⟨rfl, rfl⟩⟩

/-- Claim C8: the channel-action trace of `send_cmd` contains no lock
acquisition for any command. The `StrictFIFOLock` allocated in
`__init__` is never acquired by the command/response round-trip, which
writes and then blocks reading with the lock untouched. -/
theorem send_cmd_never_acquires_lock :
    ∀ (args : List String) (kwargs : List (String × String))
      (address term : String),
      ChanEvent.acquire ∉ send_cmd_events args kwargs address term := by
  intro args kwargs address term
  simp [send_cmd_events]

/-- Claim C2: on every response beginning with `:N` whose tail after the
3-character offset (marker plus sign character) parses as an integer
code `n`, decoding raises the error the taxonomy maps `n` to and never
returns a payload; the mapping sends 1 to `UnknownCommand`, 2 to
`UnrecognizedAxis`, 3 to `MissingParameter`, 4 to `OutOfRange`, 5 to the
`operation failed` runtime error, 6 to the `undefined error` runtime
error, 7 to `InvalidCardAddress`, 21 to `Halted`, and every other code
to `UnknownError` carrying the raw code. -/
theorem check_error_raises_mapped_error (resp : String) (n : ℤ)
    (hpre : py_startswith resp ":N" = true)
    (hparse : py_int (py_drop 3 resp) = some n) :
    check_error resp = Except.error (interpret_error n) ∧
    interpret_error 1 = PyErr.UnknownCommandError "" ∧
    interpret_error 2 = PyErr.UnrecognizedAxisError "" ∧
    interpret_error 3 = PyErr.MissingParameterError "" ∧
    interpret_error 4 = PyErr.OutOfRangeError "" ∧
    interpret_error 5 = PyErr.RuntimeError "operation failed" ∧
    interpret_error 6 = PyErr.RuntimeError "undefined error" ∧
    interpret_error 7 = PyErr.InvalidCardAddressError "" ∧
    interpret_error 21 = PyErr.HaltError "" ∧
    (∀ m : ℤ, m ∉ ([1, 2, 3, 4, 5, 6, 7, 21] : List ℤ) →
      interpret_error m = PyErr.UnknownError ("errno=" ++ toString m)) ∧
    (∀ payload : String, check_error resp ≠ Except.ok payload) := by
  have hmain : check_error resp = Except.error (interpret_error n) := by
    simp [check_error, hpre, hparse]
  refine ⟨hmain, rfl, rfl, rfl, rfl, rfl, rfl, rfl, rfl, ?_, ?_⟩
  · intro m hm
    simp only [List.mem_cons, List.not_mem_nil, or_false, not_or] at hm
    obtain ⟨h1, h2, h3, h4, h5, h6, h7, h21⟩ := hm
    simp only [interpret_error, if_neg h1, if_neg h2, if_neg h3, if_neg h4,
      if_neg h5, if_neg h6, if_neg h7, if_neg h21]
  · intro payload hok
    rw [hmain] at hok
    exact Except.noConfusion hok

/-- Witness for C2: the theorem applied to the concrete response
`:N004`, whose tail after offset 3 parses as code 4. -/
theorem check_error_raises_mapped_error_witness :
    (py_startswith ":N004" ":N" = true ∧
     py_int (py_drop 3 ":N004") = some 4) ∧
    (check_error ":N004" = Except.error (interpret_error 4) ∧
     interpret_error 1 = PyErr.UnknownCommandError "" ∧
     interpret_error 2 = PyErr.UnrecognizedAxisError "" ∧
     interpret_error 3 = PyErr.MissingParameterError "" ∧
     interpret_error 4 = PyErr.OutOfRangeError "" ∧
     interpret_error 5 = PyErr.RuntimeError "operation failed" ∧
     interpret_error 6 = PyErr.RuntimeError "undefined error" ∧
     interpret_error 7 = PyErr.InvalidCardAddressError "" ∧
     interpret_error 21 = PyErr.HaltError "" ∧
     (∀ m : ℤ, m ∉ ([1, 2, 3, 4, 5, 6, 7, 21] : List ℤ) →
       interpret_error m = PyErr.UnknownError ("errno=" ++ toString m)) ∧
     (∀ payload : String, check_error ":N004" ≠ Except.ok payload)) :=
  ⟨⟨rfl, rfl⟩, check_error_raises_mapped_error ":N004" 4 rfl rfl⟩

/-- Claim C3 (counterexample): on the build string `MS2000_XX_Y` the
claim predicts the candidate characters `X`, `X`, `_`, `Y` (each
character of the suffix after `_`, in order, without deduplication), but
`enumerate_axes` computes `set(fw_info.split("_")[1])`, which keeps only
the field between the first two underscores and deduplicates it, leaving
the single candidate `X`. -/
theorem ms2000_candidates_deduplicate :
    ms2000_candidates "MS2000_XX_Y" = some ['X'] ∧
    ms2000_candidates "MS2000_XX_Y" ≠ some ['X', 'X', '_', 'Y'] := by
  have h1 : ms2000_candidates "MS2000_XX_Y" = some ['X'] := rfl
  refine ⟨h1, ?_⟩
  rw [h1]
  simp

/-- Claim C3 (amended): whenever the build string splits on `_` into at
least two fields, the candidate labels are exactly the distinct
characters of the second field, each occurring once; the iteration order
of the Python set is implementation-defined. -/
theorem ms2000_candidates_set_semantics (fw : String)
    (pre second : List Char) (rest : List (List Char))
    (h : splitOnChar '_' fw.toList = pre :: second :: rest) :
    ∃ l, ms2000_candidates fw = some l ∧ l.Nodup ∧
      ∀ c : Char, c ∈ l ↔ c ∈ second := by
  refine ⟨pySet second, ?_, List.nodup_dedup second, fun c => List.mem_dedup⟩
  simp only [ms2000_candidates, h]

/-- Witness for the amended C3: applied to the build string `MS2000_XY`,
whose second underscore field is `XY`. -/
theorem ms2000_candidates_set_semantics_witness :
    ∃ l, ms2000_candidates "MS2000_XY" = some l ∧ l.Nodup ∧
      ∀ c : Char, c ∈ l ↔ c ∈ ['X', 'Y'] :=
  ms2000_candidates_set_semantics "MS2000_XY"
    ['M', 'S', '2', '0', '0', '0'] ['X', 'Y'] [] rfl

/-- Helper: `pytrunc` is the identity on integers. -/
theorem pytrunc_intCast (z : ℤ) : pytrunc ((z : ℚ)) = z := by
  rw [pytrunc]
  split_ifs with h
  · exact Int.floor_intCast z
  · exact Int.ceil_intCast z

/-- Claim C4 (counterexample): `move_absolute` truncates rather than
rounds. At physical position `3/20` with multiplier 10 the device-step
product is `3/2`; the code writes `int(3/2) = 1` device steps while
`round(3/2) = 2`. -/
theorem move_absolute_truncates_not_rounds :
    to_device_units ((3 : ℚ)/20) 10 = 1 ∧
    round (((3 : ℚ)/20) * 10) = 2 ∧ (1 : ℤ) ≠ 2 := by
  refine ⟨?_, ?_, by norm_num⟩
  · have harg : ((3 : ℚ)/20) * 10 = 3/2 := by norm_num
    rw [to_device_units, harg, pytrunc,
      if_pos (by norm_num : (0 : ℚ) ≤ 3/2)]
    rw [Int.floor_eq_iff]; norm_num
  · have h2 : ((3 : ℚ)/20) * 10 + 1/2 = ((2 : ℤ) : ℚ) := by norm_num
    rw [round_eq, h2, Int.floor_intCast]

/-- Claim C4 (amended): the write-side conversion is truncation toward
zero, and the round-trip still holds exactly on raw integer positions:
for every raw device integer and nonzero multiplier, converting to
physical units and back yields the raw value, which equals its own
rounding. -/
theorem unit_roundtrip (raw : ℤ) (mult : ℚ) (h : mult ≠ 0) :
    to_device_units (to_physical_units raw mult) mult = raw ∧
    round ((raw : ℚ)) = raw := by
  constructor
  · rw [to_physical_units, to_device_units, div_mul_cancel₀ _ h]
    exact pytrunc_intCast raw
  · exact round_intCast raw

/-- Witness for the amended C4: applied at raw position 7 with
multiplier 10. -/
theorem unit_roundtrip_witness :
    (10 : ℚ) ≠ 0 ∧
    (to_device_units (to_physical_units 7 10) 10 = 7 ∧
     round (((7 : ℤ) : ℚ)) = 7) :=
  ⟨by norm_num, unit_roundtrip 7 10 (by norm_num)⟩

/-- Claim C6 (counterexample): parsing the card-table line exactly as
given in the claim raises a `ValueError` instead of yielding the card,
because the address field before the first `:` is `"1"` and the code
computes `int("1"[3:]) = int("")`. -/
theorem tiger_card_line_as_claimed_fails :
    parse_card ("1:X:100,Y:101 V1.0 SCAN_XY_LED".toList) =
      Except.error (PyErr.ValueError "invalid literal for int") ∧
    parse_card ("1:X:100,Y:101 V1.0 SCAN_XY_LED".toList) ≠
      Except.ok { address := 1, function := "X:100,Y:101",
                  version := "V1.0", character := "SCAN_XY_LED" } := by
  have h1 : parse_card ("1:X:100,Y:101 V1.0 SCAN_XY_LED".toList) =
      Except.error (PyErr.ValueError "invalid literal for int") := rfl
  refine ⟨h1, ?_⟩
  rw [h1]
  simp

/-- Claim C6 (amended): on a card-table line whose address field carries
three characters before the numeral (as the parser's `address[3:]`
demands), e.g. `At 1:X:100,Y:101 V1.0 SCAN_XY_LED`, parsing yields the
card with address 1, function `X:100,Y:101`, version `V1.0` and
character `SCAN_XY_LED`, and `enumerate_axes` collects the labels
`X`, `Y` from it. -/
theorem tiger_card_line_parses_with_addr_offset :
    parse_card ("At 1:X:100,Y:101 V1.0 SCAN_XY_LED".toList) =
      Except.ok { address := 1, function := "X:100,Y:101",
                  version := "V1.0", character := "SCAN_XY_LED" } ∧
    tiger_candidates [{ address := 1, function := "X:100,Y:101",
                        version := "V1.0", character := "SCAN_XY_LED" }] =
      ["X", "Y"] := by
  refine ⟨rfl, rfl⟩

end ASIModel
